import Mathlib

/-!
Shallow embedding of `homework.py` and `exceptions.py` from the
`homework_bot` repository: a polling notifier that queries a homework-review
API and relays status messages to a chat.

JSON payloads are modelled by an inductive `JsonVal`; Python dictionaries are
association lists (first match wins, as keys are unique in Python dicts).
Python exceptions are modelled by `PyExc`, whose `is...` predicates mirror the
class hierarchy of `exceptions.py` (`HomeworkNotFoundError` and
`HomeworkAPIResponseError` are subclasses of `HomeworkAPIError`, itself a
subclass of `Exception`). Fallible Python functions become Lean functions
into `Except PyExc _`; the outcome of the one HTTP call per cycle is an
explicit input (`RequestResult`), as is the clock reading used to advance the
cursor.
-/

set_option autoImplicit false

namespace HomeworkBot

/-- A deserialized JSON value, as produced by `response.json()`. -/
inductive JsonVal where
  | null
  | bool (b : Bool)
  | num (n : Int)
  | str (s : String)
  | arr (elems : List JsonVal)
  | obj (fields : List (String × JsonVal))

/-- `v is None` in Python: an identity test against the null value. -/
def JsonVal.isNull : JsonVal → Bool
  | JsonVal.null => true
  | _ => false

/-- First-match lookup in an association list, the model of Python's
`key in d` / `d[key]` on a dict (keys are unique in a Python dict, so first
match is the match). -/
def assocLookup {α : Type} : List (String × α) → String → Option α
  | [], _ => none
  | (k, v) :: rest, key => if k = key then some v else assocLookup rest key

/-- Python's `d.get(key)`: the stored value, or `None` when the key is
absent. A stored JSON `null` and an absent key are indistinguishable here,
exactly as with `dict.get`. -/
def pyGet (fields : List (String × JsonVal)) (key : String) : JsonVal :=
  (assocLookup fields key).getD JsonVal.null

mutual

/-- Python `repr` of a JSON value (simplified: quote characters inside
strings are not escaped; no claim depends on that corner). -/
def pyRepr : JsonVal → String
  | JsonVal.null => "None"
  | JsonVal.bool true => "True"
  | JsonVal.bool false => "False"
  | JsonVal.num n => toString n
  | JsonVal.str s => "\x27" ++ s ++ "\x27"
  | JsonVal.arr elems => "[" ++ pyReprList elems ++ "]"
  | JsonVal.obj fields => "\x7b" ++ pyReprFields fields ++ "\x7d"

/-- Comma-separated `repr`s of list elements. -/
def pyReprList : List JsonVal → String
  | [] => ""
  | [v] => pyRepr v
  | v :: rest => pyRepr v ++ ", " ++ pyReprList rest

/-- Comma-separated `repr`s of dict entries. -/
def pyReprFields : List (String × JsonVal) → String
  | [] => ""
  | [(k, v)] => "\x27" ++ k ++ "\x27: " ++ pyRepr v
  | (k, v) :: rest => "\x27" ++ k ++ "\x27: " ++ pyRepr v ++ ", " ++ pyReprFields rest

end

/-- Python `str` of a JSON value: the string itself for strings, `repr`
otherwise (as in an f-string interpolation). -/
def pyStr : JsonVal → String
  | JsonVal.str s => s
  | v => pyRepr v

/-- The exceptions that can travel through this program, each carrying its
message argument. The first three model `exceptions.py`; the rest model the
built-in Python exceptions the code raises or can meet. All of them are
subclasses of Python's `Exception`. -/
inductive PyExc where
  | homeworkAPIError (msg : String)
  | homeworkNotFoundError (msg : String)
  | homeworkAPIResponseError (msg : String)
  | typeError (msg : String)
  | keyError (msg : String)
  | valueError (msg : String)
  | attributeError (msg : String)
deriving DecidableEq, Repr

/-- The message argument the exception was constructed with. For the three
classes of `exceptions.py` this is also the `.message` attribute set by
`HomeworkAPIError.__init__`. -/
def PyExc.msg : PyExc → String
  | .homeworkAPIError m => m
  | .homeworkNotFoundError m => m
  | .homeworkAPIResponseError m => m
  | .typeError m => m
  | .keyError m => m
  | .valueError m => m
  | .attributeError m => m

/-- Simplified Python `repr` of a string: double-quoted when the string
contains a single quote (and no double quote), single-quoted otherwise. -/
def pyReprOfString (s : String) : String :=
  if s.contains (Char.ofNat 39) && !(s.contains (Char.ofNat 34)) then
    "\"" ++ s ++ "\""
  else
    "\x27" ++ s ++ "\x27"

/-- Python `str(e)`: the message, except that `KeyError` renders the `repr`
of its argument. -/
def PyExc.toText : PyExc → String
  | .keyError m => pyReprOfString m
  | e => e.msg

/-- `isinstance(e, HomeworkAPIError)`: true for the class itself and for its
two subclasses declared in `exceptions.py`. -/
def PyExc.isHomeworkAPIError : PyExc → Bool
  | .homeworkAPIError _ => true
  | .homeworkNotFoundError _ => true
  | .homeworkAPIResponseError _ => true
  | _ => false

/-- `isinstance(e, HomeworkNotFoundError)`. -/
def PyExc.isHomeworkNotFoundError : PyExc → Bool
  | .homeworkNotFoundError _ => true
  | _ => false

/-- `isinstance(e, HomeworkAPIResponseError)`. -/
def PyExc.isHomeworkAPIResponseError : PyExc → Bool
  | .homeworkAPIResponseError _ => true
  | _ => false

/-- The chat identifier, a hardcoded constant in `homework.py` (not read
from the environment). -/
def TELEGRAM_CHAT_ID : Int := 7230833414

/-- Seconds slept between polling cycles. -/
def RETRY_PERIOD : Nat := 600

/-- The static status-to-verdict table `HOMEWORK_VERDICTS`. -/
def HOMEWORK_VERDICTS : List (String × String) :=
  [("approved", "Работа проверена: ревьюеру всё понравилось. Ура!"),
   ("reviewing", "Работа взята на проверку ревьюером."),
   ("rejected", "Работа проверена: у ревьюера есть замечания.")]

/-- `HOMEWORK_VERDICTS.get(status)`: a string lookup for string keys; a
hashable non-string key (null, bool, number) misses the table and yields
`None`; an unhashable key (a list or a dict) makes `dict.get` itself raise
`TypeError: unhashable type`, whose message does not mention the key. -/
def verdictGet (status : JsonVal) : Except PyExc (Option String) :=
  match status with
  | JsonVal.str s => Except.ok (assocLookup HOMEWORK_VERDICTS s)
  | JsonVal.arr _ => Except.error (PyExc.typeError "unhashable type: \x27list\x27")
  | JsonVal.obj _ => Except.error (PyExc.typeError "unhashable type: \x27dict\x27")
  | _ => Except.ok none

/-- Python truthiness of an optional string (`os.getenv` result): falsy when
the variable is unset or empty. -/
def pyFalsyOptStr : Option String → Bool
  | none => true
  | some s => decide (s = "")

/-- Python truthiness of an integer: falsy exactly at zero. -/
def intFalsy (n : Int) : Bool := decide (n = 0)

/-- `check_tokens`, parametrised by the three module-level values it reads:
the two environment-sourced tokens and the chat id constant. Raises
`ValueError` when any of the three is falsy. -/
def check_tokens (practicumToken telegramToken : Option String)
    (chatId : Int) : Except PyExc Unit :=
  if pyFalsyOptStr practicumToken || pyFalsyOptStr telegramToken
      || intFalsy chatId then
    Except.error (PyExc.valueError "Отсутствует обязательная переменная окружения.")
  else
    Except.ok ()

/-- What the log line of a `send_message` call records: a debug line on
success, an error-severity line on a swallowed failure. -/
inductive SendLog where
  | sentOk (line : String)
  | sendFailed (line : String)
deriving DecidableEq, Repr

/-- `send_message`: the behaviour of the underlying `bot.send_message` call
is an explicit input (it either returns or raises some exception). The
`try/except Exception` swallows every exception the call can raise, so the
result is always `ok` with the log line produced. -/
def send_message (message : String) (sendCall : Except PyExc Unit) :
    Except PyExc SendLog :=
  match sendCall with
  | Except.ok _ =>
      Except.ok (SendLog.sentOk ("Бот отправил сообщение \"" ++ message ++ "\""))
  | Except.error e =>
      Except.ok (SendLog.sendFailed
        ("Не удалось отправить сообщение в Telegram: " ++ e.toText))

/-- The exceptions `requests.get` can raise, mirroring the classes of
`requests.exceptions`: `HTTPError`, `ConnectionError`, `Timeout` and any
other `RequestException` are all subclasses of `RequestException`. -/
inductive ReqExc where
  | httpError (msg : String)
  | connectionError (msg : String)
  | timeout (msg : String)
  | otherRequestException (msg : String)
deriving DecidableEq, Repr

/-- `isinstance(err, requests.exceptions.HTTPError)`. -/
def ReqExc.isHTTPError : ReqExc → Bool
  | .httpError _ => true
  | _ => false

/-- Python `str` of a request exception. -/
def ReqExc.toText : ReqExc → String
  | .httpError m => m
  | .connectionError m => m
  | .timeout m => m
  | .otherRequestException m => m

/-- The outcome of the one `requests.get` call of a cycle: either a response
with a status code and a (deserialized) JSON body, or a raised request
exception. -/
inductive RequestResult where
  | response (statusCode : Nat) (body : JsonVal)
  | raised (e : ReqExc)

/-- `get_api_answer`, with the HTTP outcome as input. A non-200 status code
raises `HomeworkAPIResponseError` naming the code (this raise is not caught
by the two `except` clauses, which match only `requests` exceptions); an
`HTTPError` is re-raised as `HomeworkAPIResponseError`; every other
`RequestException` (connection errors, timeouts, ...) is re-raised as the
broader `HomeworkAPIError`. -/
def get_api_answer (r : RequestResult) : Except PyExc JsonVal :=
  match r with
  | RequestResult.response code body =>
      if code ≠ 200 then
        Except.error (PyExc.homeworkAPIResponseError
          ("Ошибка при запросе к API.Статус код: " ++ toString code))
      else
        Except.ok body
  | RequestResult.raised e =>
      if e.isHTTPError then
        Except.error (PyExc.homeworkAPIResponseError
          ("Ошибка при запросе к API: " ++ e.toText))
      else
        Except.error (PyExc.homeworkAPIError
          ("Ошибка при запросе к API: " ++ e.toText))

/-- `check_response`: type error when the payload is not a dict, `KeyError`
when `homeworks` is absent, type error when its value is not a list, and
otherwise the list itself, unchanged. -/
def check_response (response : JsonVal) : Except PyExc (List JsonVal) :=
  match response with
  | JsonVal.obj fields =>
      match assocLookup fields "homeworks" with
      | none =>
          Except.error (PyExc.keyError "Отсутствует ключ \x27homeworks\x27 в ответе API.")
      | some v =>
          match v with
          | JsonVal.arr homeworks => Except.ok homeworks
          | _ =>
              Except.error (PyExc.typeError "Значение ключа \x27homeworks\x27 должно быть списком.")
  | _ => Except.error (PyExc.typeError "Ответ API не является словарем.")

/-- `parse_status` on a dict: `homework.get` for the two fields, a
`HomeworkNotFoundError` when either is `None` (absent, or stored as JSON
null), then the verdict lookup — which itself raises `TypeError` on an
unhashable status —, an `HomeworkAPIResponseError` naming the status when
the lookup yields `None`, and the formatted message otherwise. -/
def parse_status (homework : List (String × JsonVal)) : Except PyExc String :=
  let homework_name := pyGet homework "homework_name"
  let status := pyGet homework "status"
  if homework_name.isNull || status.isNull then
    Except.error (PyExc.homeworkNotFoundError
      "В данных о домашней работе отсутствуют обязательные поля.")
  else
    match verdictGet status with
    | Except.error e => Except.error e
    | Except.ok none =>
        Except.error (PyExc.homeworkAPIResponseError
          ("Неизвестный статус работы: " ++ pyStr status))
    | Except.ok (some verdict) =>
        Except.ok ("Изменился статус проверки работы \"" ++ pyStr homework_name
          ++ "\". " ++ verdict)

/-- `parse_status` as called from the loop, on an arbitrary element of the
`homeworks` list: a non-dict element makes `homework.get` raise
`AttributeError`, caught only by the loop's generic handler. -/
def parse_statusVal (homework : JsonVal) : Except PyExc String :=
  match homework with
  | JsonVal.obj fields => parse_status fields
  | _ => Except.error (PyExc.attributeError "object has no attribute \x27get\x27")

/-- Which `except` clause of `main`'s cascade handles an exception, in the
source order: `HomeworkAPIError` (0), `HomeworkNotFoundError` (1),
`HomeworkAPIResponseError` (2), `Exception` (3). Python tries them in that
order and runs the first matching one. -/
def loopHandlerIndex (e : PyExc) : Nat :=
  if e.isHomeworkAPIError then 0
  else if e.isHomeworkNotFoundError then 1
  else if e.isHomeworkAPIResponseError then 2
  else 3

/-- The notification text the handling `except` clause of `main` builds and
passes to `send_message`. The first three clauses interpolate
`error.message`; the generic clause interpolates `str(error)`. -/
def handleLoopError (e : PyExc) : String :=
  if e.isHomeworkAPIError then "Ошибка API: " ++ e.msg
  else if e.isHomeworkNotFoundError then "Не найдены данные: " ++ e.msg
  else if e.isHomeworkAPIResponseError then "Ошибка обработки ответа: " ++ e.msg
  else "Неизвестная ошибка: " ++ e.toText

/-- The `for homework in homeworks` loop: messages passed to `send_message`
so far (a `send_message` failure never raises, so it cannot stop the loop),
and the first `parse_status` exception, if any, which abandons the rest of
the list. -/
def processHomeworks : List JsonVal → List String × Option PyExc
  | [] => ([], none)
  | hw :: rest =>
      match parse_statusVal hw with
      | Except.error e => ([], some e)
      | Except.ok message =>
          let (sent, exc) := processHomeworks rest
          (message :: sent, exc)

/-- The environment of one cycle: the outcome of its `requests.get` call and
the value `int(time.time())` would return at the cursor-advance point. -/
structure CycleInput where
  apiResult : RequestResult
  now : Nat

/-- What one iteration of the `while True` loop did: the `from_date` it
queried with, the status messages passed to `send_message` inside the `try`,
the error notifications passed to `send_message` by an `except` clause, the
cursor value after the iteration, and the seconds slept. -/
structure CycleResult where
  requestedFrom : Nat
  statusSent : List String
  errorSent : List String
  newTimestamp : Nat
  sleptFor : Nat

/-- The exception that escapes the `try` block of a cycle, if any. -/
def cycleExc (inp : CycleInput) : Option PyExc :=
  match get_api_answer inp.apiResult with
  | Except.error e => some e
  | Except.ok response =>
      match check_response response with
      | Except.error e => some e
      | Except.ok homeworks => (processHomeworks homeworks).2

/-- `true` when every step of the cycle completes without raising. -/
def cycleOk (inp : CycleInput) : Bool := (cycleExc inp).isNone

/-- One iteration of `main`'s `while True` loop, starting from cursor
`timestamp`. On success the cursor advances to the current time before the
sleep; when any step raises, the matching `except` clause sends one error
notification, logs, sleeps, and leaves the cursor untouched. -/
def runCycle (timestamp : Nat) (inp : CycleInput) : CycleResult :=
  match get_api_answer inp.apiResult with
  | Except.error e =>
      ⟨timestamp, [], [handleLoopError e], timestamp, RETRY_PERIOD⟩
  | Except.ok response =>
      match check_response response with
      | Except.error e =>
          ⟨timestamp, [], [handleLoopError e], timestamp, RETRY_PERIOD⟩
      | Except.ok homeworks =>
          match processHomeworks homeworks with
          | (sent, some e) =>
              ⟨timestamp, sent, [handleLoopError e], timestamp, RETRY_PERIOD⟩
          | (sent, none) =>
              ⟨timestamp, sent, [], inp.now, RETRY_PERIOD⟩

/-- Finitely many iterations of the loop, threading the cursor. -/
def runCycles : Nat → List CycleInput → List CycleResult
  | _, [] => []
  | t, inp :: rest =>
      let res := runCycle t inp
      res :: runCycles res.newTimestamp rest

/-- `main`: `check_tokens` runs once before the loop; when it raises, the
process terminates and no cycle runs (`none`); otherwise the loop runs,
one result per cycle input. -/
def runMain (practicumToken telegramToken : Option String) (t0 : Nat)
    (inputs : List CycleInput) : Option (List CycleResult) :=
  match check_tokens practicumToken telegramToken TELEGRAM_CHAT_ID with
  | Except.error _ => none
  | Except.ok _ => some (runCycles t0 inputs)

/-! ## Helper lemmas -/

/-- Status messages passed to `send_message` inside the `try` block of a
cycle (empty when the cycle fails before reaching the `for` loop). -/
def cycleStatusSent (inp : CycleInput) : List String :=
  match get_api_answer inp.apiResult with
  | Except.error _ => []
  | Except.ok response =>
      match check_response response with
      | Except.error _ => []
      | Except.ok homeworks => (processHomeworks homeworks).1

/-- `runCycle` rephrased through `cycleExc`: an erroring cycle keeps the
cursor and sends the handler's notification, a clean cycle advances it. -/
theorem runCycle_eq (t : Nat) (inp : CycleInput) :
    runCycle t inp =
      match cycleExc inp with
      | some e => ⟨t, cycleStatusSent inp, [handleLoopError e], t, RETRY_PERIOD⟩
      | none => ⟨t, cycleStatusSent inp, [], inp.now, RETRY_PERIOD⟩ := by
  unfold runCycle cycleExc cycleStatusSent
  cases get_api_answer inp.apiResult with
  | error e => rfl
  | ok response =>
      dsimp only
      cases check_response response with
      | error e => rfl
      | ok homeworks =>
          dsimp only
          cases processHomeworks homeworks with
          | mk sent exc =>
              dsimp only
              cases exc <;> rfl

/-- Every cycle queries with the cursor it started from. -/
theorem runCycle_requestedFrom (t : Nat) (inp : CycleInput) :
    (runCycle t inp).requestedFrom = t := by
  rw [runCycle_eq]
  cases cycleExc inp <;> rfl

/-- Every cycle ends by sleeping the fixed interval. -/
theorem runCycle_sleptFor (t : Nat) (inp : CycleInput) :
    (runCycle t inp).sleptFor = RETRY_PERIOD := by
  rw [runCycle_eq]
  cases cycleExc inp <;> rfl

/-- The loop never terminates on an error: one result per input. -/
theorem runCycles_length (t : Nat) (inputs : List CycleInput) :
    (runCycles t inputs).length = inputs.length := by
  induction inputs generalizing t with
  | nil => rfl
  | cons inp rest ih => simp [runCycles, ih]

/-- `check_tokens` either succeeds or raises exactly the `ValueError` of the
source. -/
theorem check_tokens_cases (pt tt : Option String) (cid : Int) :
    check_tokens pt tt cid = Except.ok () ∨
    check_tokens pt tt cid =
      Except.error (PyExc.valueError "Отсутствует обязательная переменная окружения.") := by
  unfold check_tokens
  by_cases h : (pyFalsyOptStr pt || pyFalsyOptStr tt || intFalsy cid) = true
  · exact Or.inr (by simp [h])
  · exact Or.inl (by simp [h])

/-- Every handler's notification embeds the exception's text: its message
appears verbatim inside the message sent. -/
theorem handleLoopError_embeds (e : PyExc) :
    ∃ pre post, handleLoopError e = pre ++ e.msg ++ post := by
  cases e with
  | homeworkAPIError m =>
      exact ⟨"Ошибка API: ", "", by simp [handleLoopError, PyExc.isHomeworkAPIError,
        PyExc.msg, String.append_empty]⟩
  | homeworkNotFoundError m =>
      exact ⟨"Ошибка API: ", "", by simp [handleLoopError, PyExc.isHomeworkAPIError,
        PyExc.msg, String.append_empty]⟩
  | homeworkAPIResponseError m =>
      exact ⟨"Ошибка API: ", "", by simp [handleLoopError, PyExc.isHomeworkAPIError,
        PyExc.msg, String.append_empty]⟩
  | typeError m =>
      exact ⟨"Неизвестная ошибка: ", "", by simp [handleLoopError,
        PyExc.isHomeworkAPIError, PyExc.isHomeworkNotFoundError,
        PyExc.isHomeworkAPIResponseError, PyExc.toText, PyExc.msg, String.append_empty]⟩
  | keyError m =>
      by_cases hq : (m.contains (Char.ofNat 39) && !(m.contains (Char.ofNat 34))) = true
      · refine ⟨"Неизвестная ошибка: " ++ "\"", "\"", ?_⟩
        show "Неизвестная ошибка: " ++ pyReprOfString m = _
        unfold pyReprOfString
        rw [if_pos hq]
        rfl
      · refine ⟨"Неизвестная ошибка: " ++ "\x27", "\x27", ?_⟩
        show "Неизвестная ошибка: " ++ pyReprOfString m = _
        unfold pyReprOfString
        rw [if_neg hq]
        rfl
  | valueError m =>
      exact ⟨"Неизвестная ошибка: ", "", by simp [handleLoopError,
        PyExc.isHomeworkAPIError, PyExc.isHomeworkNotFoundError,
        PyExc.isHomeworkAPIResponseError, PyExc.toText, PyExc.msg, String.append_empty]⟩
  | attributeError m =>
      exact ⟨"Неизвестная ошибка: ", "", by simp [handleLoopError,
        PyExc.isHomeworkAPIError, PyExc.isHomeworkNotFoundError,
        PyExc.isHomeworkAPIResponseError, PyExc.toText, PyExc.msg, String.append_empty]⟩

/-! ## Claims -/

/-- C1: in every cycle of the driver loop, if `get_api_answer`,
`check_response`, `parse_status` and the per-record notifications all
complete without raising, the cursor advances to the current time before the
sleep; in every cycle in which a step raises, the cursor keeps its previous
value, and the next cycle queries with that same `from_date`. -/
theorem cursor_advances_iff_cycle_succeeds (t : Nat) (inp : CycleInput) :
    (cycleOk inp = true → (runCycle t inp).newTimestamp = inp.now) ∧
    (cycleOk inp = false →
      (runCycle t inp).newTimestamp = t ∧
      ∀ inp2 : CycleInput,
        (runCycle (runCycle t inp).newTimestamp inp2).requestedFrom = t) := by
  unfold cycleOk
  cases hx : cycleExc inp with
  | none =>
      refine ⟨fun _ => ?_, fun hfalse => by simp at hfalse⟩
      rw [runCycle_eq, hx]
  | some e =>
      refine ⟨fun htrue => by simp [hx] at htrue, fun _ => ?_⟩
      have hts : (runCycle t inp).newTimestamp = t := by rw [runCycle_eq, hx]
      exact ⟨hts, fun inp2 => by rw [hts, runCycle_requestedFrom]⟩

/-- Witness for C1 at concrete cycles: a clean cycle (HTTP 200, empty list)
advances the cursor from 5 to the clock value 42; a failing cycle (HTTP 500)
keeps it at 5. -/
theorem cursor_advances_iff_cycle_succeeds_witness :
    (runCycle 5 ⟨RequestResult.response 200 (JsonVal.obj [("homeworks", JsonVal.arr [])]),
        42⟩).newTimestamp = 42 ∧
    (runCycle 5 ⟨RequestResult.response 500 JsonVal.null, 42⟩).newTimestamp = 5 :=
  ⟨(cursor_advances_iff_cycle_succeeds 5
      ⟨RequestResult.response 200 (JsonVal.obj [("homeworks", JsonVal.arr [])]), 42⟩).1 rfl,
   ((cursor_advances_iff_cycle_succeeds 5
      ⟨RequestResult.response 500 JsonVal.null, 42⟩).2 rfl).1⟩

/-- C2: for every homework dict carrying a string `homework_name` and a
`status` that is a key of `HOMEWORK_VERDICTS` (that is, one of `approved`,
`reviewing`, `rejected`), `parse_status` returns exactly
`Изменился статус проверки работы "{homework_name}". {verdict}` with the
verdict of the static table. -/
theorem parse_status_formats_known_status
    (hw : List (String × JsonVal)) (name st verdict : String)
    (hn : assocLookup hw "homework_name" = some (JsonVal.str name))
    (hs : assocLookup hw "status" = some (JsonVal.str st))
    (hv : assocLookup HOMEWORK_VERDICTS st = some verdict) :
    parse_status hw =
      Except.ok ("Изменился статус проверки работы \"" ++ name ++ "\". " ++ verdict) := by
  unfold parse_status pyGet verdictGet
  rw [hn, hs]
  dsimp only
  simp [JsonVal.isNull, pyStr, hv]

/-- Witness for C2: an `approved` record formats to the approved verdict. -/
theorem parse_status_formats_known_status_witness :
    parse_status [("homework_name", JsonVal.str "hw1"), ("status", JsonVal.str "approved")] =
      Except.ok ("Изменился статус проверки работы \"" ++ "hw1" ++ "\". "
        ++ "Работа проверена: ревьюеру всё понравилось. Ура!") :=
  parse_status_formats_known_status _ "hw1" "approved" _ rfl rfl rfl

/-- C3: `check_response` raises `TypeError` on a non-dict payload, raises
`KeyError` when the key `homeworks` is absent, raises `TypeError` when the
`homeworks` value is not a list, and otherwise returns the `homeworks` list
unchanged. -/
theorem check_response_validates_payload (response : JsonVal) :
    ((∀ fields, response ≠ JsonVal.obj fields) →
        check_response response =
          Except.error (PyExc.typeError "Ответ API не является словарем.")) ∧
    (∀ fields, response = JsonVal.obj fields →
      (assocLookup fields "homeworks" = none →
          check_response response =
            Except.error (PyExc.keyError "Отсутствует ключ \x27homeworks\x27 в ответе API.")) ∧
      (∀ v, assocLookup fields "homeworks" = some v →
        ((∀ homeworks, v ≠ JsonVal.arr homeworks) →
            check_response response =
              Except.error (PyExc.typeError "Значение ключа \x27homeworks\x27 должно быть списком.")) ∧
        (∀ homeworks, v = JsonVal.arr homeworks →
            check_response response = Except.ok homeworks))) := by
  constructor
  · intro h
    cases response with
    | obj fields => exact absurd rfl (h fields)
    | null => rfl
    | bool b => rfl
    | num n => rfl
    | str s => rfl
    | arr elems => rfl
  · intro fields hf
    subst hf
    constructor
    · intro hnone
      unfold check_response
      dsimp only
      rw [hnone]
    · intro v hv
      constructor
      · intro harr
        unfold check_response
        dsimp only
        rw [hv]
        cases v with
        | arr homeworks => exact absurd rfl (harr homeworks)
        | null => rfl
        | bool b => rfl
        | num n => rfl
        | str s => rfl
        | obj fs => rfl
      · intro homeworks he
        subst he
        unfold check_response
        dsimp only
        rw [hv]

/-- Witness for C3: a well-shaped payload returns its list unchanged. -/
theorem check_response_validates_payload_witness :
    check_response (JsonVal.obj [("homeworks", JsonVal.arr [JsonVal.null])]) =
      Except.ok [JsonVal.null] :=
  (((check_response_validates_payload
      (JsonVal.obj [("homeworks", JsonVal.arr [JsonVal.null])])).2
      [("homeworks", JsonVal.arr [JsonVal.null])] rfl).2
      (JsonVal.arr [JsonVal.null]) rfl).2 [JsonVal.null] rfl

/-- C4: `get_api_answer` raises `HomeworkAPIResponseError` whose message
carries the status code whenever the response's status code is not 200, and
returns the deserialized JSON body only when the status code is exactly
200. -/
theorem get_api_answer_status_code_contract :
    (∀ (code : Nat) (body : JsonVal), code ≠ 200 →
        get_api_answer (RequestResult.response code body) =
          Except.error (PyExc.homeworkAPIResponseError
            ("Ошибка при запросе к API.Статус код: " ++ toString code))) ∧
    (∀ (r : RequestResult) (body : JsonVal),
        get_api_answer r = Except.ok body → r = RequestResult.response 200 body) := by
  constructor
  · intro code body h
    unfold get_api_answer
    dsimp only
    rw [if_pos h]
  · intro r body h
    cases r with
    | response code b =>
        unfold get_api_answer at h
        dsimp only at h
        by_cases hc : code = 200
        · subst hc
          rw [if_neg (by simp)] at h
          injection h with hb
          rw [hb]
        · rw [if_pos hc] at h
          cases h
    | raised e =>
        unfold get_api_answer at h
        dsimp only at h
        by_cases he : e.isHTTPError = true
        · rw [if_pos he] at h
          cases h
        · rw [if_neg he] at h
          cases h

/-- Witness for C4: an HTTP 500 reply raises the response error naming the
code. -/
theorem get_api_answer_status_code_contract_witness :
    get_api_answer (RequestResult.response 500 JsonVal.null) =
      Except.error (PyExc.homeworkAPIResponseError
        ("Ошибка при запросе к API.Статус код: " ++ toString 500)) :=
  get_api_answer_status_code_contract.1 500 JsonVal.null (by decide)

/-- C5: every transport-level failure of the request (connection error,
timeout, any other non-HTTPError request exception) raises the broader
`HomeworkAPIError`, which a caller can tell apart from the
`HomeworkAPIResponseError` kind. -/
theorem get_api_answer_transport_errors (m : String) :
    (get_api_answer (RequestResult.raised (ReqExc.connectionError m)) =
        Except.error (PyExc.homeworkAPIError ("Ошибка при запросе к API: " ++ m))) ∧
    (get_api_answer (RequestResult.raised (ReqExc.timeout m)) =
        Except.error (PyExc.homeworkAPIError ("Ошибка при запросе к API: " ++ m))) ∧
    (get_api_answer (RequestResult.raised (ReqExc.otherRequestException m)) =
        Except.error (PyExc.homeworkAPIError ("Ошибка при запросе к API: " ++ m))) ∧
    (∀ s : String, (PyExc.homeworkAPIError s).isHomeworkAPIError = true ∧
        (PyExc.homeworkAPIError s).isHomeworkAPIResponseError = false) :=
  ⟨rfl, rfl, rfl, fun _ => ⟨rfl, rfl⟩⟩

/-- C6 counterexample: for the record with `homework_name` present and
`status` the (unhashable) empty list — a status value that is not in the
verdict table — the code raises `TypeError` from the `dict.get` call itself,
not the unknown-status `HomeworkAPIResponseError`, and the `TypeError`'s
message does not name the value. -/
theorem parse_status_unhashable_status_counterexample :
    parse_status [("homework_name", JsonVal.str "x"), ("status", JsonVal.arr [])] =
      Except.error (PyExc.typeError "unhashable type: \x27list\x27") ∧
    parse_status [("homework_name", JsonVal.str "x"), ("status", JsonVal.arr [])] ≠
      Except.error (PyExc.homeworkAPIResponseError
        ("Неизвестный статус работы: " ++ pyStr (JsonVal.arr []))) := by
  constructor
  · rfl
  · intro h
    have h1 : Except.error (ε := PyExc) (α := String)
        (PyExc.typeError "unhashable type: \x27list\x27") =
        Except.error (PyExc.homeworkAPIResponseError
          ("Неизвестный статус работы: " ++ pyStr (JsonVal.arr []))) := h
    injection h1 with h2
    cases h2

/-- C6 (amended): `parse_status` raises `HomeworkNotFoundError` whenever
`homework_name` or `status` is missing, whatever the status value is (so no
verdict lookup gets to matter); when both are present and the status is
hashable but not in the verdict table, it raises `HomeworkAPIResponseError`
naming the offending status; and when both are present but the status is
unhashable (a list or a dict), the verdict lookup itself raises the
`TypeError` of `dict.get`, which propagates and does not name the value. -/
theorem parse_status_error_contract (hw : List (String × JsonVal)) :
    (((pyGet hw "homework_name").isNull = true ∨ (pyGet hw "status").isNull = true) →
        parse_status hw =
          Except.error (PyExc.homeworkNotFoundError
            "В данных о домашней работе отсутствуют обязательные поля.")) ∧
    ((pyGet hw "homework_name").isNull = false →
      (pyGet hw "status").isNull = false →
      verdictGet (pyGet hw "status") = Except.ok none →
      parse_status hw =
        Except.error (PyExc.homeworkAPIResponseError
          ("Неизвестный статус работы: " ++ pyStr (pyGet hw "status")))) ∧
    (∀ e : PyExc,
      (pyGet hw "homework_name").isNull = false →
      (pyGet hw "status").isNull = false →
      verdictGet (pyGet hw "status") = Except.error e →
      parse_status hw = Except.error e) ∧
    (∀ elems : List JsonVal, verdictGet (JsonVal.arr elems) =
        Except.error (PyExc.typeError "unhashable type: \x27list\x27")) ∧
    (∀ fields : List (String × JsonVal), verdictGet (JsonVal.obj fields) =
        Except.error (PyExc.typeError "unhashable type: \x27dict\x27")) := by
  refine ⟨?_, ?_, ?_, fun elems => rfl, fun fields => rfl⟩
  · intro h
    unfold parse_status
    dsimp only
    have hcond : ((pyGet hw "homework_name").isNull || (pyGet hw "status").isNull) = true := by
      rcases h with h | h <;> simp [h]
    rw [if_pos hcond]
  · intro h1 h2 h3
    unfold parse_status
    dsimp only
    rw [if_neg (by simp [h1, h2]), h3]
  · intro e h1 h2 h3
    unfold parse_status
    dsimp only
    rw [if_neg (by simp [h1, h2]), h3]

/-- Witness for C6: a record with no `homework_name` raises the
missing-fields error even though its status is valid; a record with an
unknown string status raises the unknown-status error naming it; a record
with a list status raises the `TypeError` of the lookup. -/
theorem parse_status_error_contract_witness :
    parse_status [("status", JsonVal.str "approved")] =
      Except.error (PyExc.homeworkNotFoundError
        "В данных о домашней работе отсутствуют обязательные поля.") ∧
    parse_status [("homework_name", JsonVal.str "hw1"), ("status", JsonVal.str "unexpected")] =
      Except.error (PyExc.homeworkAPIResponseError
        ("Неизвестный статус работы: " ++ pyStr (JsonVal.str "unexpected"))) ∧
    parse_status [("homework_name", JsonVal.str "hw1"), ("status", JsonVal.arr [])] =
      Except.error (PyExc.typeError "unhashable type: \x27list\x27") :=
  ⟨(parse_status_error_contract [("status", JsonVal.str "approved")]).1 (Or.inl rfl),
   (parse_status_error_contract
      [("homework_name", JsonVal.str "hw1"),
       ("status", JsonVal.str "unexpected")]).2.1 rfl rfl rfl,
   (parse_status_error_contract
      [("homework_name", JsonVal.str "hw1"), ("status", JsonVal.arr [])]).2.2.1
      (PyExc.typeError "unhashable type: \x27list\x27") rfl rfl rfl⟩

/-- C7: every exception escaping the fetch, validate or format-and-notify
steps of a cycle is caught: the loop sends exactly one error notification
embedding the exception's text, sleeps the fixed 600-second interval, and
keeps iterating (one result per remaining input); `runMain` terminates with
no cycle only when `check_tokens` raises its startup configuration error. -/
theorem loop_handles_every_cycle_exception (t : Nat) (inp : CycleInput) (e : PyExc)
    (h : cycleExc inp = some e) :
    (runCycle t inp).errorSent = [handleLoopError e] ∧
    (∃ pre post, handleLoopError e = pre ++ e.msg ++ post) ∧
    (runCycle t inp).sleptFor = RETRY_PERIOD ∧
    RETRY_PERIOD = 600 ∧
    (∀ rest : List CycleInput, (runCycles t (inp :: rest)).length = rest.length + 1) ∧
    (∀ (pt tt : Option String) (t0 : Nat) (inputs : List CycleInput),
        runMain pt tt t0 inputs = none ↔
          check_tokens pt tt TELEGRAM_CHAT_ID =
            Except.error (PyExc.valueError "Отсутствует обязательная переменная окружения.")) := by
  refine ⟨?_, handleLoopError_embeds e, runCycle_sleptFor t inp, rfl, ?_, ?_⟩
  · rw [runCycle_eq, h]
  · intro rest
    rw [runCycles_length]
    rfl
  · intro pt tt t0 inputs
    unfold runMain
    rcases check_tokens_cases pt tt TELEGRAM_CHAT_ID with hok | herr
    · rw [hok]
      simp
    · rw [herr]
      simp

/-- Witness for C7: the HTTP 500 cycle sends exactly the one API-error
notification and sleeps 600 seconds. -/
theorem loop_handles_every_cycle_exception_witness :
    (runCycle 5 ⟨RequestResult.response 500 JsonVal.null, 42⟩).errorSent =
      [handleLoopError (PyExc.homeworkAPIResponseError
        ("Ошибка при запросе к API.Статус код: " ++ toString 500))] ∧
    (runCycle 5 ⟨RequestResult.response 500 JsonVal.null, 42⟩).sleptFor = 600 :=
  ⟨(loop_handles_every_cycle_exception 5 ⟨RequestResult.response 500 JsonVal.null, 42⟩
      (PyExc.homeworkAPIResponseError
        ("Ошибка при запросе к API.Статус код: " ++ toString 500)) rfl).1,
   ((loop_handles_every_cycle_exception 5 ⟨RequestResult.response 500 JsonVal.null, 42⟩
      (PyExc.homeworkAPIResponseError
        ("Ошибка при запросе к API.Статус код: " ++ toString 500)) rfl).2.2.1).trans
    (loop_handles_every_cycle_exception 5 ⟨RequestResult.response 500 JsonVal.null, 42⟩
      (PyExc.homeworkAPIResponseError
        ("Ошибка при запросе к API.Статус код: " ++ toString 500)) rfl).2.2.2.1⟩

/-- C8: whenever any of the three credential values read by `check_tokens`
is falsy, it raises the configuration `ValueError` and no polling cycle
begins; and the hardcoded chat identifier is never falsy, so its branch of
the check can never be the one that triggers. -/
theorem check_tokens_contract :
    (∀ pt tt : Option String,
      (pyFalsyOptStr pt = true ∨ pyFalsyOptStr tt = true
          ∨ intFalsy TELEGRAM_CHAT_ID = true) →
        check_tokens pt tt TELEGRAM_CHAT_ID =
          Except.error (PyExc.valueError "Отсутствует обязательная переменная окружения.") ∧
        ∀ (t0 : Nat) (inputs : List CycleInput), runMain pt tt t0 inputs = none) ∧
    intFalsy TELEGRAM_CHAT_ID = false := by
  constructor
  · intro pt tt h
    have hcheck : check_tokens pt tt TELEGRAM_CHAT_ID =
        Except.error (PyExc.valueError "Отсутствует обязательная переменная окружения.") := by
      unfold check_tokens
      rcases h with h | h | h <;> rw [if_pos (by simp [h])]
    refine ⟨hcheck, fun t0 inputs => ?_⟩
    unfold runMain
    rw [hcheck]
  · decide

/-- Witness for C8: with the Practicum token unset, startup raises and the
loop never runs. -/
theorem check_tokens_contract_witness :
    check_tokens none (some "token") TELEGRAM_CHAT_ID =
      Except.error (PyExc.valueError "Отсутствует обязательная переменная окружения.") ∧
    runMain none (some "token") 0 [] = none :=
  ⟨(check_tokens_contract.1 none (some "token") (Or.inl rfl)).1,
   (check_tokens_contract.1 none (some "token") (Or.inl rfl)).2 0 []⟩

/-- C9: `send_message` never raises to its caller: whatever the underlying
send call does, the result is a normal return, and when the call raised, the
failure is logged at error severity with the underlying cause. -/
theorem send_message_never_raises (message : String) (sendCall : Except PyExc Unit) :
    (∃ logLine, send_message message sendCall = Except.ok logLine) ∧
    (∀ e : PyExc, sendCall = Except.error e →
        send_message message sendCall =
          Except.ok (SendLog.sendFailed
            ("Не удалось отправить сообщение в Telegram: " ++ e.toText))) := by
  cases sendCall with
  | ok u => exact ⟨⟨_, rfl⟩, fun e he => by cases he⟩
  | error e =>
      refine ⟨⟨_, rfl⟩, fun e2 he => ?_⟩
      injection he with he2
      subst he2
      rfl

/-- Witness for C9: a raising send call is swallowed and logged. -/
theorem send_message_never_raises_witness :
    send_message "msg" (Except.error (PyExc.valueError "network down")) =
      Except.ok (SendLog.sendFailed
        ("Не удалось отправить сообщение в Telegram: "
          ++ (PyExc.valueError "network down").toText)) :=
  (send_message_never_raises "msg" _).2 _ rfl

/-- C10: since both `HomeworkNotFoundError` and `HomeworkAPIResponseError`
are subclasses of `HomeworkAPIError` and that handler comes first, their
dedicated `except` clauses are unreachable: every exception of the three
kinds runs the first clause and the notification carries the
`Ошибка API:` prefix. -/
theorem api_error_handler_shadows_subclasses :
    (∀ e : PyExc, e.isHomeworkAPIError = true → loopHandlerIndex e = 0) ∧
    (∀ e : PyExc, loopHandlerIndex e ≠ 1) ∧
    (∀ e : PyExc, loopHandlerIndex e ≠ 2) ∧
    (∀ m : String,
      handleLoopError (PyExc.homeworkAPIError m) = "Ошибка API: " ++ m ∧
      handleLoopError (PyExc.homeworkNotFoundError m) = "Ошибка API: " ++ m ∧
      handleLoopError (PyExc.homeworkAPIResponseError m) = "Ошибка API: " ++ m) := by
  refine ⟨?_, ?_, ?_, fun m => ⟨rfl, rfl, rfl⟩⟩
  · intro e he
    unfold loopHandlerIndex
    rw [if_pos he]
  · intro e
    cases e <;> simp [loopHandlerIndex, PyExc.isHomeworkAPIError,
      PyExc.isHomeworkNotFoundError, PyExc.isHomeworkAPIResponseError]
  · intro e
    cases e <;> simp [loopHandlerIndex, PyExc.isHomeworkAPIError,
      PyExc.isHomeworkNotFoundError, PyExc.isHomeworkAPIResponseError]

/-- Witness for C10: a `HomeworkNotFoundError` lands in the first handler
and gets the API-error prefix, not its dedicated one. -/
theorem api_error_handler_shadows_subclasses_witness :
    loopHandlerIndex (PyExc.homeworkNotFoundError "x") = 0 ∧
    handleLoopError (PyExc.homeworkNotFoundError "x") = "Ошибка API: " ++ "x" :=
  ⟨api_error_handler_shadows_subclasses.1 _ rfl,
   (api_error_handler_shadows_subclasses.2.2.2 "x").2.1⟩

end HomeworkBot
